import Mathlib

/-!
Verification development for the `instaproxy` service (`src/app.py`).

The repository is a single-file Flask proxy around Instagram with three
retrieval tiers (`InstagramAPIByPrivateAPI`, `InstagramAPIByEmbedAPI`,
`InstagramAPIByCache`).  The definitions below are a shallow embedding of
the decision logic of that file: Python dicts/lists become a `Json` value
type, Python exceptions become the `Exc` error type threaded through
`Except`, network and HTML/regex extraction become explicit oracle
arguments (their outcomes are inputs to the embedded control flow), and
the Redis cache becomes an explicit association list with expiry times.
Each definition's doc comment points to the source lines it embeds.
-/

/-- Model of Python JSON-like values (dicts, lists, strings, numbers,
booleans, `None`) as produced by `json.loads` in `src/app.py`.  Numbers are
modelled as integers (the fields the code touches are ids, timestamps and
pixel sizes). -/
inductive Json where
  | null : Json
  | bool (b : Bool) : Json
  | num (n : Int) : Json
  | str (s : String) : Json
  | arr (elems : List Json) : Json
  | obj (fields : List (String × Json)) : Json

/-- Python `d[k]` / `d.get(k)` on a dict: first binding for `k`, `none`
when the key is absent or the value is not a dict. -/
def Json.get? : Json → String → Option Json
  | .obj fields, k => fields.lookup k
  | _, _ => none

/-- Python truthiness of a JSON value: `None`, `False`, `0`, `""`, `[]` and
`{}` are falsy (used by `or` at app.py:381 and the guard at app.py:199). -/
def Json.isFalsy : Json → Bool
  | .null => true
  | .bool b => !b
  | .num n => n == 0
  | .str s => s == ""
  | .arr elems => elems.isEmpty
  | .obj fields => fields.isEmpty

/-- Replace the first binding of `k` in an association list, appending when
absent (Python dict item assignment). -/
def setKeyList : List (String × Json) → String → Json → List (String × Json)
  | [], k, v => [(k, v)]
  | (k', v') :: rest, k, v =>
    if k' = k then (k, v) :: rest else (k', v') :: setKeyList rest k v

/-- Python `d[k] = v` on a dict; on non-dicts this model is the identity
(the embedded code only applies it to dicts it has just built). -/
def Json.setKey : Json → String → Json → Json
  | .obj fields, k, v => .obj (setKeyList fields k v)
  | j, _, _ => j

/-- Model of the Python exceptions that drive control flow in `src/app.py`:
`KeyError` / `IndexError` / `AttributeError` raised by dict and list access,
`instagram_private_api`'s `ClientCookieExpiredError` and
`ClientLoginRequiredError` (app.py:17-19), `json.JSONDecodeError`, network
failures from `requests`, and the two explicit `raise Exception(...)` in
`_transform_gql_child` (app.py:462 and app.py:464). -/
inductive Exc where
  | keyError (k : String) : Exc
  | indexError : Exc
  | attributeError (attr : String) : Exc
  | cookieExpired : Exc
  | loginRequired : Exc
  | decodeError : Exc
  | netError (msg : String) : Exc
  | unsupportedMediaType (tag : String) : Exc
  | unknownChildType (tag : Json) : Exc

/-- The exception classes caught by `perform_api_action` (app.py:75) and
`login` (app.py:93): `ClientCookieExpiredError, ClientLoginRequiredError`. -/
def Exc.isSessionExc : Exc → Bool
  | .cookieExpired => true
  | .loginRequired => true
  | _ => false

/-- Python `d[k]` raising `KeyError` when absent. -/
def oget (j : Json) (k : String) : Except Exc Json :=
  match j.get? k with
  | some v => .ok v
  | none => .error (.keyError k)

/-- Python `d[k]` followed by iteration: the value must be a list. -/
def ogetArr (j : Json) (k : String) : Except Exc (List Json) :=
  match j.get? k with
  | some (.arr elems) => .ok elems
  | some _ => .error (.attributeError k)
  | none => .error (.keyError k)

/-- Python `xs[0]`: first element of a list, `IndexError` on an empty list
(and on non-lists, collapsing Python's `TypeError` into the same error). -/
def jfirst : Json → Except Exc Json
  | .arr (x :: _) => .ok x
  | _ => .error .indexError

/- ------------------------------------------------------------------ -/
/- Identifier codec (app.py:37, app.py:118-122, app.py:164-174)       -/
/- ------------------------------------------------------------------ -/

/-- The 64-symbol alphabet `'ABC...xyz0123456789-_'` used both for the
class-level `b64alphabetmap` (app.py:37) and for the local `alphabet` in
`_get_story` (app.py:168). -/
def b64chars : List Char :=
  "ABCDEFGHIJKLMNOPQRSTUVWXYZabcdefghijklmnopqrstuvwxyz0123456789-_".data

/-- Position of a character in a character list (the value stored for it by
the dict comprehension at app.py:37), `none` when absent. -/
def b64indexAux : List Char → Char → Option Nat
  | [], _ => none
  | a :: as, c => if a = c then some 0 else (b64indexAux as c).map (· + 1)

/-- `InstagramAPIByPrivateAPI.b64alphabetmap[c]` (app.py:37): the index of
`c` in the 64-symbol alphabet; `none` models the `KeyError` raised for a
character outside the alphabet. -/
def b64index (c : Char) : Option Nat := b64indexAux b64chars c

/-- The loop body of `shortcode_to_id` (app.py:119-121): characters of the
reversed shortcode, enumerated from `i`, accumulating
`b64alphabetmap[c] * 64 ** i` into `acc`. -/
def shortcodeToIdAux : List Char → Nat → Nat → Option Nat
  | [], _, acc => some acc
  | c :: cs, i, acc =>
    match b64index c with
    | none => none
    | some d => shortcodeToIdAux cs (i + 1) (acc + d * 64 ^ i)

/-- `InstagramAPIByPrivateAPI.shortcode_to_id` (app.py:118-122):
`for i, c in enumerate(shortcode[::-1]): id += b64alphabetmap[c] * 64 ** i`;
`none` models the `KeyError` for characters outside the alphabet. -/
def shortcode_to_id (s : String) : Option Nat :=
  shortcodeToIdAux s.data.reverse 0 0

/-- The character appended for one `divmod` step of the `while` loop in
`_get_story` (app.py:170-172): `alphabet[remainder]`.  The default is never
used because the remainder of a division by 64 is below the alphabet's
length. -/
def alphaChar (d : Nat) : Char := b64chars.getD d 'A'

/-- The `while story_id > 0` loop of `_get_story` (app.py:170-172) as the
character list it builds: each step prepends `alphabet[story_id % 64]`, so
the result is the recursive image of `story_id // 64` followed by the
character for `story_id % 64`. -/
def idToShortcodeAux (n : Nat) : List Char :=
  if h : n = 0 then []
  else idToShortcodeAux (n / 64) ++ [alphaChar (n % 64)]
termination_by n
decreasing_by exact Nat.div_lt_self (Nat.pos_of_ne_zero h) (by norm_num)

/-- The shortcode computed by `_get_story` (app.py:169-172) from a numeric
story id: repeated `divmod` by 64, most significant digit first.  Input `0`
yields the empty string (the loop body never runs). -/
def id_to_shortcode (n : Nat) : String := ⟨idToShortcodeAux n⟩

/-- Value of a digit list read least-significant-digit first (the order in
which `shortcode_to_id` consumes the reversed shortcode). -/
def valRev : List Nat → Nat
  | [] => 0
  | d :: ds => d + 64 * valRev ds

/-- `b64alphabetmap` applied to every character of a list, `none` when any
character is outside the alphabet. -/
def digitsOf : List Char → Option (List Nat)
  | [] => some []
  | c :: cs =>
    match b64index c, digitsOf cs with
    | some d, some ds => some (d :: ds)
    | _, _ => none

/-- Last element of a digit list (self-contained helper). -/
def lastDigit? : List Nat → Option Nat
  | [] => none
  | [d] => some d
  | _ :: d :: ds => lastDigit? (d :: ds)

/-- Last element of a character list (self-contained helper). -/
def lastChar? : List Char → Option Char
  | [] => none
  | [c] => some c
  | _ :: c :: cs => lastChar? (c :: cs)

/- ------------------------------------------------------------------ -/
/- Response normalizer (app.py:375-464)                               -/
/- ------------------------------------------------------------------ -/

/-- Left-to-right effectful map: a Python list comprehension whose body may
raise, propagating the first exception. -/
def mapME (f : Json → Except Exc Json) : List Json → Except Exc (List Json)
  | [] => .ok []
  | x :: xs =>
    match f x with
    | .error e => .error e
    | .ok y =>
      match mapME f xs with
      | .error e => .error e
      | .ok ys => .ok (y :: ys)

/-- `child.get("node", child)` (app.py:436). -/
def unwrapNode (child : Json) : Json :=
  match child.get? "node" with
  | some n => n
  | none => child

/-- One element of the `candidates` comprehension in the image branch of
`_transform_gql_child` (app.py:441-448). -/
def imageCandidate (dr : Json) : Except Exc Json := do
  let w ← oget dr "config_width"
  let h ← oget dr "config_height"
  let u ← oget dr "src"
  pure (.obj [("width", w), ("height", h), ("url", u)])

/-- `InstagramAPIByEmbedAPI._transform_gql_child` (app.py:435-464).  Image
tags build `image_versions2.candidates` from `display_resources`; video
tags build a single `video_versions` entry whose `width` is sourced from
`dimensions["height"]` and whose `height` is sourced from
`dimensions["width"]` (the swap is in the source, app.py:455-456);
story-video tags raise `... type not supported` (app.py:462) and anything
else raises `Unknown child type ...` (app.py:464), including a non-string
type tag, which matches none of the tuples. -/
def transform_gql_child (child : Json) : Except Exc Json :=
  let c := unwrapNode child
  match c.get? "__typename" with
  | none => .error (.keyError "__typename")
  | some (Json.str t) =>
    if t = "GraphImage" ∨ t = "StoryImage" ∨ t = "XDTGraphImage" then do
      let drs ← ogetArr c "display_resources"
      let cands ← mapME imageCandidate drs
      pure (.obj [("image_versions2", .obj [("candidates", .arr cands)])])
    else if t = "GraphVideo" ∨ t = "XDTGraphVideo" then do
      let dims ← oget c "dimensions"
      let w ← oget dims "height"
      let h ← oget dims "width"
      let vu ← oget c "video_url"
      pure (.obj [("video_versions", .arr [.obj [("width", w), ("height", h), ("url", vu)]])])
    else if t = "StoryVideo" ∨ t = "GraphStoryVideo" ∨ t = "XDTStoryVideo" then
      .error (.unsupportedMediaType t)
    else
      .error (.unknownChildType (.str t))
  | some tv => .error (.unknownChildType tv)

/-- `InstagramAPIByEmbedAPI._transform_to_carousel_media` (app.py:425-433):
with a `edge_sidecar_to_children` key, one media item per element of its
`edges` list, in order; otherwise a single media item built from the post
itself. -/
def transform_to_carousel_media (post : Json) : Except Exc (List Json) :=
  match post.get? "edge_sidecar_to_children" with
  | some esc => do
    let edges ← ogetArr esc "edges"
    mapME transform_gql_child edges
  | none => do
    let m ← transform_gql_child post
    pure [m]

/-- `InstagramAPIByEmbedAPI._transform_to_user` (app.py:412-423):
`username` always, `pk` and `profile_pic_url` only when the owner carries
`id` / `profile_pic_url`. -/
def transform_to_user (data : Json) : Except Exc Json := do
  let owner ← oget data "owner"
  let username ← oget owner "username"
  let fields0 := [("username", username)]
  let fields1 :=
    match owner.get? "id" with
    | some pk => fields0 ++ [("pk", pk)]
    | none => fields0
  let fields2 :=
    match owner.get? "profile_pic_url" with
    | some p => fields1 ++ [("profile_pic_url", p)]
    | none => fields1
  pure (.obj fields2)

/-- The default caption edge list `[{"node": {"text": ""}}]` (app.py:381). -/
def defaultCaptionEdges : Json :=
  .arr [.obj [("node", .obj [("text", .str "")])]]

/-- `InstagramAPIByEmbedAPI._transform_to_post` (app.py:375-395): unwrap
`shortcode_media` (falling back to `xdt_shortcode_media` on `KeyError`),
take the caption edges `or` the default, then build the single-item `items`
payload in the source's evaluation order. -/
def transform_to_post (data : Json) : Except Exc Json := do
  let d ←
    match data.get? "shortcode_media" with
    | some d => Except.ok d
    | none =>
      match data.get? "xdt_shortcode_media" with
      | some d => Except.ok d
      | none => Except.error (Exc.keyError "xdt_shortcode_media")
  let emc ← oget d "edge_media_to_caption"
  let edges ← oget emc "edges"
  let description := if edges.isFalsy then defaultCaptionEdges else edges
  let code ← oget d "shortcode"
  let user ← transform_to_user d
  let d0 ← jfirst description
  let node ← oget d0 "node"
  let text ← oget node "text"
  let cm ← transform_to_carousel_media d
  let takenAt ← oget d "taken_at_timestamp"
  pure (.obj [("items", .arr [.obj
    [("code", code), ("user", user), ("caption", .obj [("text", text)]),
     ("carousel_media", .arr cm), ("taken_at", takenAt)]])])

/- ------------------------------------------------------------------ -/
/- Embed scraper tier and fallback pipeline (app.py:142-213)          -/
/- ------------------------------------------------------------------ -/

/-- Outcome of one extraction strategy of `_get_post_data`
(app.py:193-213): it can raise, fall through without usable data, or
return extracted data.  The regex / tokenizer / truthiness machinery that
produces this outcome consumes network responses and is represented by
this oracle value. -/
inductive StratResult where
  | raises (e : Exc) : StratResult
  | unusable : StratResult
  | usable (d : Json) : StratResult

/-- `InstagramAPIByEmbedAPI._get_post_data` (app.py:187-289): strategy 1
(`additionalDataLoaded`, app.py:194-200), then strategy 2
(`TimeSliceImpl`, app.py:203-213), then the direct GraphQL request
(app.py:216-289) whose outcome — data or a raised network/parse error —
is returned as is. -/
def get_post_data (s1 s2 : StratResult) (s3 : Except Exc Json) : Except Exc Json :=
  match s1 with
  | .raises e => .error e
  | .usable d => .ok d
  | .unusable =>
    match s2 with
    | .raises e => .error e
    | .usable d => .ok d
    | .unusable => s3

/-- `post["items"][0]["user"] = fuser` (app.py:152).  The non-dict
fallbacks are unreachable: `_get_post` has already read
`post["items"][0]["user"]` successfully before assigning. -/
def setFirstItemUser (post fuser : Json) : Json :=
  match post.get? "items" with
  | some (.arr (it0 :: rest)) =>
    post.setKey "items" (.arr (it0.setKey "user" fuser :: rest))
  | _ => post

/-- `InstagramAPIByEmbedAPI._get_post` (app.py:150-154): transform the
extracted data, then replace `post["items"][0]["user"]` by the `user`
field of a `get_user` call on the post's username.  `userFetch` is the
oracle for that `get_user` call. -/
def embedGetPostInner (postData : Except Exc Json)
    (userFetch : Json → Except Exc Json) : Except Exc Json := do
  let data ← postData
  let post ← transform_to_post data
  let items ← oget post "items"
  let it0 ← jfirst items
  let u ← oget it0 "user"
  let uname ← oget u "username"
  let fetched ← userFetch uname
  let fuser ← oget fetched "user"
  pure (setFirstItemUser post fuser)

/-- `InstagramAPIByEmbedAPI.get_post` (app.py:142-147): `try` the embed
path, and on any exception (`except:` is bare) return
`super().get_post(shortcode)` — the Private API tier.  The second
component counts invocations of the private tier's `get_post`. -/
def embed_get_post (postData : Except Exc Json)
    (userFetch : Json → Except Exc Json)
    (privResult : Except Exc Json) : Except Exc Json × Nat :=
  match embedGetPostInner postData userFetch with
  | .ok p => (.ok p, 0)
  | .error _ => (privResult, 1)

/- ------------------------------------------------------------------ -/
/- Private API tier: relogin machine and login (app.py:36-122)        -/
/- ------------------------------------------------------------------ -/

/-- The mutable state of `InstagramAPIByPrivateAPI` that the relogin path
reads: `self.device_id` (app.py:44, app.py:89, app.py:103), which may be
`None` when the loaded settings carry no `device_id`. -/
structure PrivState where
  device_id : Option String

/-- A record of one `Client(..., device_id=..., on_login=...)` construction
performed by `relogin` (app.py:96-100), remembering which device identifier
was passed. -/
structure ReloginCall where
  device_id : Option String

/-- `InstagramAPIByPrivateAPI.relogin` (app.py:96-100): reconstructs the
client passing the stored `self.device_id`. -/
def relogin (st : PrivState) : ReloginCall := ⟨st.device_id⟩

/-- `InstagramAPIByPrivateAPI.perform_api_action` (app.py:72-77): run the
action; on `ClientCookieExpiredError` / `ClientLoginRequiredError` relogin
once and run the action again, returning the retry's outcome unmodified;
any other exception propagates without relogin.  `f1` and `f2` are the
oracle outcomes of the first call and of the retry; the second component
lists the relogin attempts performed. -/
def perform_api_action {α : Type} (st : PrivState) (f1 f2 : Except Exc α) :
    Except Exc α × List ReloginCall :=
  match f1 with
  | .ok v => (.ok v, [])
  | .error e =>
    if e.isSessionExc then (f2, [relogin st]) else (.error e, [])

/-- A record of one `Client(...)` construction performed by `login`
(app.py:79-100): a fresh credential login (app.py:82-84), a session resume
from loaded settings (app.py:90-92), or a relogin (app.py:97-100). -/
inductive ClientInit where
  | fresh : ClientInit
  | resume (settings : Json) : ClientInit
  | relog (device_id : Option Json) : ClientInit

/-- `InstagramAPIByPrivateAPI.login` (app.py:79-94).  `file` is the state
of the settings file: `none` when `os.path.isfile` is false, `some (.ok s)`
when `json.load` decodes it to `s`, and `some (.error e)` when decoding
raises.  `freshRes` / `resumeRes` / `reloginRes` are the outcomes of the
corresponding `Client` constructions.  The `try` block catches only
`ClientCookieExpiredError` and `ClientLoginRequiredError` (app.py:93), so a
decode error raised by `json.load` propagates.  The second component lists
the client constructions performed. -/
def login (file : Option (Except Exc Json))
    (freshRes resumeRes reloginRes : Except Exc Unit) :
    Except Exc Unit × List ClientInit :=
  let body : Except Exc Unit × List ClientInit × Option Json :=
    match file with
    | none => (freshRes, [ClientInit.fresh], none)
    | some (.error e) => (.error e, [], none)
    | some (.ok s) => (resumeRes, [ClientInit.resume s], s.get? "device_id")
  match body with
  | (.ok _, inits, _) => (.ok (), inits)
  | (.error e, inits, dev) =>
    if e.isSessionExc then (reloginRes, inits ++ [ClientInit.relog dev])
    else (.error e, inits)

/-- `InstagramAPIByPrivateAPI.get_story` (app.py:56-59): scan the story
items for the first whose `id` string starts with `story_id`; falling off
the loop returns Python's implicit `None`, modelled as `.ok none`.  A
non-string or missing `id` raises. -/
def priv_get_story (items : List Json) (story_id : String) :
    Except Exc (Option Json) :=
  match items with
  | [] => .ok none
  | item :: rest =>
    match item.get? "id" with
    | some (Json.str s) =>
      if story_id.data.isPrefixOf s.data then .ok (some item)
      else priv_get_story rest story_id
    | some _ => .error (.attributeError "startswith")
    | none => .error (.keyError "id")

/-- `InstagramAPIByEmbedAPI.get_story` (app.py:157-161): `try` the embed
story path (`_get_story`), and on any exception fall back to the private
tier's scan over the user's story items. -/
def embed_get_story (embedAttempt : Except Exc Json) (items : List Json)
    (story_id : String) : Except Exc (Option Json) :=
  match embedAttempt with
  | .ok v => .ok (some v)
  | .error _ => priv_get_story items story_id

/- ------------------------------------------------------------------ -/
/- Cache layer (app.py:466-498)                                       -/
/- ------------------------------------------------------------------ -/

/-- One Redis entry written by `with_cache`: key, serialized value, and the
absolute expiry time (`none` for no expiry). -/
structure CacheEntry where
  key : String
  val : String
  expiresAt : Option Nat

/-- `self.cache.get(key)` at time `now`: the most recent value stored under
`key`, provided it has not expired. -/
def cacheGet (st : List CacheEntry) (now : Nat) (k : String) : Option String :=
  match st.find? (fun e =>
      e.key == k &&
      match e.expiresAt with
      | none => true
      | some t => decide (now < t)) with
  | some e => some e.val
  | none => none

/-- `self.cache.set(key, v)` / `self.cache.set(key, v, ex=ttl)` at time
`now`: a `ttl` of `some d` expires the entry at `now + d`. -/
def cacheSet (st : List CacheEntry) (now : Nat) (k v : String)
    (ttl : Option Nat) : List CacheEntry :=
  ⟨k, v, ttl.map (now + ·)⟩ :: st

/-- Python truthiness of the `ex` argument of `with_cache` (`if ex:`,
app.py:493): present and a non-zero duration. -/
def ttlTruthy : Option Nat → Bool
  | none => false
  | some t => t != 0

/-- `InstagramAPIByCache.with_cache` (app.py:487-498).  `dumps` / `loads`
stand for `json.dumps` / `json.loads` on the cached value type; `f` is the
producer's outcome (a raised exception propagates before anything is
stored).  On a hit, deserialize without running the producer; on a miss,
run the producer once and store its serialized result, with expiry `ex`
when `ex` is truthy and without expiry otherwise.  The last component
counts producer invocations. -/
def with_cache {α : Type} (dumps : α → String) (loads : String → α)
    (st : List CacheEntry) (now : Nat) (key : String) (f : Except Exc α)
    (ex : Option Nat) : Except Exc (α × List CacheEntry × Nat) :=
  match cacheGet st now key with
  | some v => .ok (loads v, st, 0)
  | none =>
    match f with
    | .error e => .error e
    | .ok val =>
      if ttlTruthy ex then .ok (val, cacheSet st now key (dumps val) ex, 1)
      else .ok (val, cacheSet st now key (dumps val) none, 1)

/-- `timedelta(hours=24)` in seconds (app.py:475, app.py:485). -/
def ttl24h : Nat := 24 * 60 * 60

/-- The f-string key `f'instagram:story:{story_id}'` (app.py:485): both
arguments of `get_story` are in scope, but the key interpolates only
`story_id`. -/
def get_story_cache_key (user_name story_id : String) : String :=
  "instagram:story:" ++ story_id

/-- `InstagramAPIByCache.get_story` (app.py:484-485): `with_cache` keyed by
`get_story_cache_key`, with the 24-hour TTL, around the producer
`lambda: super().get_story(user_name, story_id)` whose outcome is
`producer user_name story_id`. -/
def cache_get_story {α : Type} (dumps : α → String) (loads : String → α)
    (st : List CacheEntry) (now : Nat) (user_name story_id : String)
    (producer : String → String → Except Exc α) :
    Except Exc (α × List CacheEntry × Nat) :=
  with_cache dumps loads st now (get_story_cache_key user_name story_id)
    (producer user_name story_id) (some ttl24h)

/-- `json.dumps` restricted to the `Option`-shaped values stored by the
story cache: Python's `None` serializes to the string `null`
(app.py:494-496 storing the result of app.py:56-59); a present payload is
serialized by the payload serializer `dumpVal`. -/
def json_dumps_opt (dumpVal : Json → String) : Option Json → String
  | none => "null"
  | some j => dumpVal j

/-- `json.loads` restricted to the same values: the string `null`
deserializes to Python's `None`; anything else is a payload for
`loadVal`. -/
def json_loads_opt (loadVal : String → Json) (s : String) : Option Json :=
  if s = "null" then none else some (loadVal s)

/- ------------------------------------------------------------------ -/
/- Concrete inputs used by counterexamples and witnesses              -/
/- ------------------------------------------------------------------ -/

/-- A `shortcode_media` payload whose single (non-sidecar) child carries
the `StoryVideo` type tag, driving `_transform_gql_child` into the
`raise Exception(f"... type not supported")` branch (app.py:461-462). -/
def storyVideoPostData : Json :=
  .obj [("shortcode_media", .obj
    [("edge_media_to_caption", .obj [("edges", .arr [])]),
     ("shortcode", .str "Cstory"),
     ("owner", .obj [("username", .str "bob")]),
     ("taken_at_timestamp", .num 1700000000),
     ("__typename", .str "StoryVideo")])]

/-- A `shortcode_media` payload whose `edge_sidecar_to_children.edges`
list is empty: a carousel with zero children. -/
def emptyCarouselPostData : Json :=
  .obj [("shortcode_media", .obj
    [("edge_media_to_caption", .obj [("edges", .arr [])]),
     ("shortcode", .str "Cempty"),
     ("owner", .obj [("username", .str "alice")]),
     ("edge_sidecar_to_children", .obj [("edges", .arr [])]),
     ("taken_at_timestamp", .num 1700000001)])]

/-- The single item of the post `transform_to_post` builds from
`emptyCarouselPostData`: its `carousel_media` list is empty. -/
def emptyCarouselItem : Json :=
  .obj [("code", .str "Cempty"),
        ("user", .obj [("username", .str "alice")]),
        ("caption", .obj [("text", .str "")]),
        ("carousel_media", .arr []),
        ("taken_at", .num 1700000001)]

/-- The post `transform_to_post` builds from `emptyCarouselPostData`. -/
def emptyCarouselPost : Json :=
  .obj [("items", .arr [emptyCarouselItem])]

/-- A node-wrapped sidecar child with the `GraphVideo` tag, 720 in the
`dimensions.height` field, 1280 in the `dimensions.width` field. -/
def videoChildExample : Json :=
  .obj [("node", .obj
    [("__typename", .str "GraphVideo"),
     ("dimensions", .obj [("height", .num 720), ("width", .num 1280)]),
     ("video_url", .str "https-video")])]

/-- An unwrapped image child with two display resources. -/
def imageChildExample : Json :=
  .obj [("__typename", .str "GraphImage"),
        ("display_resources", .arr
          [.obj [("config_width", .num 320), ("config_height", .num 400),
                 ("src", .str "https-small")],
           .obj [("config_width", .num 640), ("config_height", .num 800),
                 ("src", .str "https-big")]])]

/-- A sidecar value with two node-wrapped `imageChildExample` children. -/
def twoChildSidecar : Json :=
  .obj [("edges", .arr [.obj [("node", imageChildExample)],
                        .obj [("node", imageChildExample)]])]

/-- An unwrapped `shortcode_media` payload carrying `twoChildSidecar`. -/
def twoChildSidecarPost : Json :=
  .obj [("shortcode", .str "Cpair"),
        ("edge_sidecar_to_children", twoChildSidecar)]

/-- The media item `transform_gql_child` builds from `imageChildExample`. -/
def imageMediaItem : Json :=
  .obj [("image_versions2", .obj [("candidates", .arr
    [.obj [("width", .num 320), ("height", .num 400),
           ("url", .str "https-small")],
     .obj [("width", .num 640), ("height", .num 800),
           ("url", .str "https-big")]])])]

/- ================================================================== -/
/- Theorems                                                           -/
/- ================================================================== -/

theorem exbind_ok {α β : Type} (a : α) (f : α → Except Exc β) :
    (Except.ok a >>= f) = f a := rfl

theorem exbind_error {α β : Type} (e : Exc) (f : α → Except Exc β) :
    ((Except.error e : Except Exc α) >>= f) = Except.error e := rfl

/- Identifier codec lemmas -/

theorem b64indexAux_spec (as : List Char) (c : Char) :
    ∀ d, b64indexAux as c = some d → d < as.length ∧ ∀ x : Char, as.getD d x = c := by
  induction as with
  | nil => intro d h; simp [b64indexAux] at h
  | cons a as ih =>
    intro d h
    by_cases hac : a = c
    · rw [b64indexAux, if_pos hac] at h
      obtain rfl : 0 = d := Option.some.inj h
      exact ⟨Nat.succ_pos _, fun x => hac⟩
    · rw [b64indexAux, if_neg hac] at h
      obtain ⟨d', hd', rfl⟩ := Option.map_eq_some'.mp h
      obtain ⟨hlen, hget⟩ := ih d' hd'
      exact ⟨Nat.succ_lt_succ hlen, fun x => hget x⟩

theorem b64index_char (c : Char) (d : Nat) (h : b64index c = some d) :
    d < 64 ∧ alphaChar d = c := by
  obtain ⟨hlen, hget⟩ := b64indexAux_spec b64chars c d h
  exact ⟨by simpa using hlen, hget 'A'⟩

theorem alphaChar_zero : alphaChar 0 = 'A' := rfl

theorem digitsOf_isSome (cs : List Char) (h : ∀ c ∈ cs, (b64index c).isSome) :
    ∃ ds, digitsOf cs = some ds := by
  induction cs with
  | nil => exact ⟨[], rfl⟩
  | cons c cs ih =>
    obtain ⟨d, hd⟩ := Option.isSome_iff_exists.mp (h c (by simp))
    obtain ⟨ds, hds⟩ := ih (fun x hx => h x (by simp [hx]))
    exact ⟨d :: ds, by simp [digitsOf, hd, hds]⟩

theorem digitsOf_spec (cs : List Char) :
    ∀ ds, digitsOf cs = some ds → ds.map alphaChar = cs ∧ ∀ d ∈ ds, d < 64 := by
  induction cs with
  | nil =>
    intro ds h
    obtain rfl : ([] : List Nat) = ds := Option.some.inj h
    simp
  | cons c cs ih =>
    intro ds h
    cases hb : b64index c with
    | none => simp [digitsOf, hb] at h
    | some d =>
      cases hcs : digitsOf cs with
      | none => simp [digitsOf, hb, hcs] at h
      | some ds' =>
        rw [digitsOf, hb, hcs] at h
        obtain rfl : d :: ds' = ds := Option.some.inj h
        obtain ⟨hmap, hlt⟩ := ih ds' hcs
        obtain ⟨hd64, hchar⟩ := b64index_char c d hb
        refine ⟨by simp [hmap, hchar], ?_⟩
        intro x hx
        rcases List.mem_cons.mp hx with rfl | hx
        · exact hd64
        · exact hlt x hx

theorem shortcodeToIdAux_eq (cs : List Char) :
    ∀ ds, digitsOf cs = some ds → ∀ i acc,
      shortcodeToIdAux cs i acc = some (acc + valRev ds * 64 ^ i) := by
  induction cs with
  | nil =>
    intro ds h i acc
    obtain rfl : ([] : List Nat) = ds := Option.some.inj h
    simp [shortcodeToIdAux, valRev]
  | cons c cs ih =>
    intro ds h i acc
    cases hb : b64index c with
    | none => simp [digitsOf, hb] at h
    | some d =>
      cases hcs : digitsOf cs with
      | none => simp [digitsOf, hb, hcs] at h
      | some ds' =>
        rw [digitsOf, hb, hcs] at h
        obtain rfl : d :: ds' = ds := Option.some.inj h
        simp only [shortcodeToIdAux, hb]
        rw [ih ds' hcs (i + 1) (acc + d * 64 ^ i)]
        congr 1
        simp only [valRev]
        ring

theorem valRev_pos (ds : List Nat) :
    ds ≠ [] → lastDigit? ds ≠ some 0 → 0 < valRev ds := by
  induction ds with
  | nil => intro hne _; exact absurd rfl hne
  | cons d ds ih =>
    intro _ hlast
    cases ds with
    | nil =>
      have hd : d ≠ 0 := fun h => hlast (by simp [lastDigit?, h])
      simp [valRev]
      omega
    | cons e es =>
      have hpos := ih (by simp) hlast
      simp only [valRev] at hpos ⊢
      omega

theorem idToShortcodeAux_zero : idToShortcodeAux 0 = [] := by
  rw [idToShortcodeAux]
  simp

theorem idToShortcodeAux_step (n : Nat) (h : n ≠ 0) :
    idToShortcodeAux n = idToShortcodeAux (n / 64) ++ [alphaChar (n % 64)] := by
  conv_lhs => rw [idToShortcodeAux]
  rw [dif_neg h]

theorem idToShortcodeAux_valRev (ds : List Nat) :
    (∀ d ∈ ds, d < 64) → lastDigit? ds ≠ some 0 →
      idToShortcodeAux (valRev ds) = (ds.map alphaChar).reverse := by
  induction ds with
  | nil => intro _ _; simp [valRev, idToShortcodeAux_zero]
  | cons d ds ih =>
    intro hlt hlast
    have hd64 : d < 64 := hlt d (by simp)
    cases ds with
    | nil =>
      have hd : d ≠ 0 := fun h => hlast (by simp [lastDigit?, h])
      have hval : valRev [d] = d := by simp [valRev]
      rw [hval, idToShortcodeAux_step d hd,
        Nat.div_eq_of_lt hd64, Nat.mod_eq_of_lt hd64, idToShortcodeAux_zero]
      simp
    | cons e es =>
      have hlast' : lastDigit? (e :: es) ≠ some 0 := hlast
      have hlt' : ∀ x ∈ e :: es, x < 64 := fun x hx => hlt x (by simp [hx])
      have hpos : 0 < valRev (e :: es) := valRev_pos _ (by simp) hlast'
      have hval : valRev (d :: e :: es) = d + 64 * valRev (e :: es) := rfl
      have hne : d + 64 * valRev (e :: es) ≠ 0 := by omega
      have hdiv : (d + 64 * valRev (e :: es)) / 64 = valRev (e :: es) := by omega
      have hmod : (d + 64 * valRev (e :: es)) % 64 = d := by omega
      rw [hval, idToShortcodeAux_step _ hne, hdiv, hmod, ih hlt' hlast']
      simp

theorem lastChar?_concat (l : List Char) (c : Char) :
    lastChar? (l ++ [c]) = some c := by
  induction l with
  | nil => rfl
  | cons a l ih =>
    cases l with
    | nil => rfl
    | cons b l => exact ih

theorem lastChar?_reverse (cs : List Char) :
    lastChar? cs.reverse = cs.head? := by
  cases cs with
  | nil => rfl
  | cons c cs => simp [List.reverse_cons, lastChar?_concat]

theorem lastChar?_map_alpha (ds : List Nat) :
    lastChar? (ds.map alphaChar) = (lastDigit? ds).map alphaChar := by
  induction ds with
  | nil => rfl
  | cons d ds ih =>
    cases ds with
    | nil => rfl
    | cons e es => exact ih

/-- C2: for every non-empty shortcode over the 64-symbol alphabet whose
first character is not `'A'`, `id_to_shortcode` inverts `shortcode_to_id`;
at the boundary, `shortcode_to_id "AA" = shortcode_to_id "A" = 0` and
`id_to_shortcode 0` is the empty string. -/
theorem c2_shortcode_roundtrip (s : String) (h1 : s ≠ "")
    (h2 : ∀ c ∈ s.data, (b64index c).isSome)
    (h3 : s.data.head? ≠ some 'A') :
    (∃ n, shortcode_to_id s = some n ∧ id_to_shortcode n = s)
    ∧ shortcode_to_id "AA" = some 0 ∧ shortcode_to_id "A" = some 0
    ∧ id_to_shortcode 0 = "" := by
  refine ⟨?_, by decide, by decide, ?_⟩
  · have hdne : s.data ≠ [] := by
      intro hnil
      apply h1
      cases s with
      | mk l =>
        have : l = [] := hnil
        subst this
        rfl
    have h2' : ∀ c ∈ s.data.reverse, (b64index c).isSome := by
      intro c hc
      exact h2 c (List.mem_reverse.mp hc)
    obtain ⟨ds, hds⟩ := digitsOf_isSome s.data.reverse h2'
    obtain ⟨hmap, hlt⟩ := digitsOf_spec _ _ hds
    have hid : shortcode_to_id s = some (valRev ds) := by
      rw [shortcode_to_id, shortcodeToIdAux_eq _ _ hds 0 0]
      simp
    obtain ⟨c0, hc0⟩ : ∃ c0, s.data.head? = some c0 := by
      cases hsd : s.data with
      | nil => exact absurd hsd hdne
      | cons a l => exact ⟨a, rfl⟩
    have hc0A : c0 ≠ 'A' := fun h => h3 (h ▸ hc0)
    have hlastc : lastChar? (ds.map alphaChar) = some c0 := by
      rw [hmap, lastChar?_reverse, hc0]
    have hlast : lastDigit? ds ≠ some 0 := by
      intro h0
      rw [lastChar?_map_alpha, h0] at hlastc
      exact hc0A (Option.some.inj hlastc).symm
    refine ⟨valRev ds, hid, ?_⟩
    rw [id_to_shortcode, idToShortcodeAux_valRev ds hlt hlast, hmap,
      List.reverse_reverse]
  · rw [id_to_shortcode, idToShortcodeAux_zero]

/-- Witness for C2 at the concrete shortcode `"Bob"`. -/
theorem c2_shortcode_roundtrip_witness :
    ("Bob" ≠ "" ∧ (∀ c ∈ "Bob".data, (b64index c).isSome)
      ∧ "Bob".data.head? ≠ some 'A')
    ∧ ((∃ n, shortcode_to_id "Bob" = some n ∧ id_to_shortcode n = "Bob")
       ∧ shortcode_to_id "AA" = some 0 ∧ shortcode_to_id "A" = some 0
       ∧ id_to_shortcode 0 = "") :=
  ⟨⟨by decide, by decide, by decide⟩,
   c2_shortcode_roundtrip "Bob" (by decide) (by decide) (by decide)⟩

/-- C1: when all three extraction strategies of the embed tier fail —
strategies 1 and 2 raise or yield no usable data, and the GraphQL request
raises — `get_post` invokes the Private API tier's `get_post` exactly once
and returns its result unmodified by any embed-specific transformation. -/
theorem c1_fallback_order (s1 s2 : StratResult) (e3 : Exc)
    (userFetch : Json → Except Exc Json) (privResult : Except Exc Json)
    (h1 : ∀ d, s1 ≠ .usable d) (h2 : ∀ d, s2 ≠ .usable d) :
    embed_get_post (get_post_data s1 s2 (.error e3)) userFetch privResult
      = (privResult, 1) := by
  cases s1 with
  | usable d => exact absurd rfl (h1 d)
  | raises e => rfl
  | unusable =>
    cases s2 with
    | usable d => exact absurd rfl (h2 d)
    | raises e => rfl
    | unusable => rfl

/-- Witness for C1: strategy 1 without usable data, strategy 2 raising,
GraphQL raising; the private result comes back untouched. -/
theorem c1_fallback_order_witness :
    embed_get_post
      (get_post_data .unusable (.raises (.netError "tokenize"))
        (.error (.netError "graphql")))
      (fun _ => .error (.netError "unused")) (.ok (.str "private-post"))
      = (.ok (.str "private-post"), 1) :=
  c1_fallback_order .unusable (.raises (.netError "tokenize"))
    (.netError "graphql") (fun _ => .error (.netError "unused"))
    (.ok (.str "private-post"))
    (fun _ h => StratResult.noConfusion h)
    (fun _ h => StratResult.noConfusion h)

/-- C3: `perform_api_action` — through which `get_post`, `get_user` and
`get_stories` all run their raw private-API calls (app.py:52, 65, 70) —
performs, on a session-expiry error, exactly one relogin (passing the
stored device identifier) followed by exactly one retry whose outcome,
success or failure, is returned unmodified; on first-call success no
relogin happens. -/
theorem c3_relogin_once {α : Type} (st : PrivState) (f1 f2 : Except Exc α) :
    (∀ e, f1 = .error e → e.isSessionExc = true →
      perform_api_action st f1 f2 = (f2, [relogin st])
        ∧ (relogin st).device_id = st.device_id)
    ∧ (∀ v, f1 = .ok v → perform_api_action st f1 f2 = (.ok v, [])) := by
  constructor
  · rintro e rfl he
    exact ⟨by simp [perform_api_action, he], rfl⟩
  · rintro v rfl
    exact rfl

/-- Witness for C3: a cookie-expiry on the first call, a login-required
failure on the retry; the retry's failure is returned with one relogin
carrying the stored device id. -/
theorem c3_relogin_once_witness :
    perform_api_action ⟨some "device-1"⟩
        (Except.error Exc.cookieExpired : Except Exc Json)
        (Except.error Exc.loginRequired)
      = (Except.error Exc.loginRequired, [relogin ⟨some "device-1"⟩])
    ∧ (relogin ⟨some "device-1"⟩).device_id = some "device-1" :=
  (c3_relogin_once ⟨some "device-1"⟩ _ _).1 Exc.cookieExpired rfl rfl

/-- C4: `with_cache` on a hit deserializes and returns the stored value
without invoking the producer; on a miss it invokes the producer exactly
once, serializes and stores the result under the key — expiring `now + t`
for a present TTL `t`, with no expiry when the TTL is absent — and returns
the produced value. -/
theorem c4_with_cache {α : Type} (dumps : α → String) (loads : String → α)
    (st : List CacheEntry) (now : Nat) (key : String) (fres : α)
    (ex : Option Nat) :
    (∀ v, cacheGet st now key = some v →
      with_cache dumps loads st now key (.ok fres) ex = .ok (loads v, st, 0))
    ∧ (∀ t, cacheGet st now key = none → ex = some t → t ≠ 0 →
      with_cache dumps loads st now key (.ok fres) ex
        = .ok (fres, ⟨key, dumps fres, some (now + t)⟩ :: st, 1))
    ∧ (cacheGet st now key = none → ex = none →
      with_cache dumps loads st now key (.ok fres) ex
        = .ok (fres, ⟨key, dumps fres, none⟩ :: st, 1)) := by
  refine ⟨?_, ?_, ?_⟩
  · intro v hv
    simp [with_cache, hv]
  · rintro t hmiss rfl ht
    simp [with_cache, hmiss, ttlTruthy, cacheSet, ht]
  · rintro hmiss rfl
    simp [with_cache, hmiss, ttlTruthy, cacheSet]

/-- Witness for C4: a miss on an empty cache with the 24-hour TTL stores
the serialized value expiring at `0 + ttl24h` and reports one producer
invocation. -/
theorem c4_with_cache_witness :
    (cacheGet [] 0 "instagram:post:Cabc" = none)
    ∧ with_cache (fun _ : Json => "post-json") (fun _ => Json.null) [] 0
        "instagram:post:Cabc" (.ok (Json.str "post")) (some ttl24h)
      = .ok (Json.str "post",
          ⟨"instagram:post:Cabc", "post-json", some (0 + ttl24h)⟩ :: [], 1) :=
  ⟨rfl, (c4_with_cache _ _ [] 0 _ _ _).2.1 ttl24h rfl rfl (by decide)⟩

/-- C5: a child whose type tag is in the video family yields a `Video`
variant with exactly one candidate whose `width` is sourced from the
child's `dimensions.height` field, `height` from `dimensions.width` (the
swapped mapping), and `url` from `video_url`. -/
theorem c5_video_swapped (child dims dh dw vu : Json) (t : String)
    (ht : (unwrapNode child).get? "__typename" = some (.str t))
    (hfam : t = "GraphVideo" ∨ t = "XDTGraphVideo")
    (hdims : (unwrapNode child).get? "dimensions" = some dims)
    (hh : dims.get? "height" = some dh)
    (hw : dims.get? "width" = some dw)
    (hu : (unwrapNode child).get? "video_url" = some vu) :
    transform_gql_child child
      = .ok (.obj [("video_versions",
          .arr [.obj [("width", dh), ("height", dw), ("url", vu)]])]) := by
  rcases hfam with rfl | rfl <;>
    simp [transform_gql_child, ht, oget, hdims, hh, hw, hu, exbind_ok]

/-- Witness for C5 on a concrete node-wrapped `GraphVideo` child:
the produced single candidate has `width = 720` (the `dimensions.height`
field) and `height = 1280` (the `dimensions.width` field). -/
theorem c5_video_swapped_witness :
    ((unwrapNode videoChildExample).get? "__typename"
      = some (.str "GraphVideo"))
    ∧ transform_gql_child videoChildExample
      = .ok (.obj [("video_versions",
          .arr [.obj [("width", .num 720), ("height", .num 1280),
                      ("url", .str "https-video")]])]) :=
  ⟨rfl, c5_video_swapped videoChildExample _ _ _ _ "GraphVideo" rfl
    (Or.inl rfl) rfl rfl rfl rfl⟩

/-- C6 counterexample: on embed-extracted data whose single child carries
the `StoryVideo` tag, the normalizer raises the unsupported-media-type
error, yet that failure does not surface from `get_post`: the bare
`except:` (app.py:146) converts it into one fallback call to the Private
API tier, whose result is what the caller receives. -/
theorem c6_counterexample :
    transform_to_post storyVideoPostData
      = .error (.unsupportedMediaType "StoryVideo")
    ∧ embed_get_post
        (get_post_data (.usable storyVideoPostData) .unusable
          (.error (.netError "unreached")))
        (fun _ => .error (.netError "unreached"))
        (.ok (.str "private-post"))
      = (.ok (.str "private-post"), 1) :=
  ⟨rfl, rfl⟩

/-- C6 (amended): when normalization of successfully embed-extracted post
data fails with `UnsupportedMediaType`, the failure does not surface from
`get_post`: the catch-all handler converts it into exactly one invocation
of the Private API tier and returns that tier's result. -/
theorem c6_unsupported_falls_back (d : Json) (s2 : StratResult)
    (s3 : Except Exc Json) (userFetch : Json → Except Exc Json)
    (privResult : Except Exc Json) (t : String)
    (h : transform_to_post d = .error (.unsupportedMediaType t)) :
    embed_get_post (get_post_data (.usable d) s2 s3) userFetch privResult
      = (privResult, 1) := by
  have hinner :
      embedGetPostInner (get_post_data (.usable d) s2 s3) userFetch
        = .error (.unsupportedMediaType t) := by
    show embedGetPostInner (.ok d) userFetch = _
    simp [embedGetPostInner, exbind_ok, h, exbind_error]
  simp [embed_get_post, hinner]

/-- Witness for C6 (amended) on the concrete `StoryVideo` payload, with a
failing private tier: the private failure, not the media-type error, is
what comes back. -/
theorem c6_unsupported_falls_back_witness :
    (transform_to_post storyVideoPostData
      = .error (.unsupportedMediaType "StoryVideo"))
    ∧ embed_get_post
        (get_post_data (.usable storyVideoPostData) (.raises (.netError "w"))
          (.error (.netError "w")))
        (fun _ => .ok (.obj [("user", .obj [])]))
        (.error .loginRequired)
      = (.error .loginRequired, 1) :=
  ⟨rfl, c6_unsupported_falls_back storyVideoPostData _ _ _ _ "StoryVideo" rfl⟩

/-- C7 counterexample: with a present-but-undecodable settings file,
`login` performs no client construction at all — in particular no fresh
credential login — and the decode error propagates out of construction
(only the two session-expiry exceptions are caught, app.py:93). -/
theorem c7_counterexample :
    login (some (.error .decodeError)) (.ok ()) (.ok ()) (.ok ())
      = (.error .decodeError, []) :=
  rfl

/-- C7 (amended): a failure to decode an existing session-state file is
not treated as an absent session: any non-session-expiry error raised by
decoding propagates out of `login` with no client construction performed,
whereas an absent file does perform a fresh credential login. -/
theorem c7_decode_error_propagates (e : Exc)
    (freshRes resumeRes reloginRes : Except Exc Unit)
    (he : e.isSessionExc = false) :
    login (some (.error e)) freshRes resumeRes reloginRes = (.error e, [])
    ∧ login none (.ok ()) resumeRes reloginRes = (.ok (), [.fresh]) := by
  constructor
  · simp [login, he]
  · rfl

/-- Witness for C7 (amended) at the JSON decode error. -/
theorem c7_decode_error_propagates_witness :
    (Exc.decodeError.isSessionExc = false)
    ∧ (login (some (.error .decodeError)) (.error .cookieExpired) (.ok ())
          (.ok ()) = (.error .decodeError, [])
       ∧ login none (.ok ()) (.ok ()) (.ok ()) = (.ok (), [.fresh])) :=
  ⟨rfl, c7_decode_error_propagates .decodeError (.error .cookieExpired)
    (.ok ()) (.ok ()) rfl⟩

/- List lemmas for the effectful map used by the carousel builder -/

theorem mapME_length (f : Json → Except Exc Json) :
    ∀ l ys, mapME f l = .ok ys → ys.length = l.length := by
  intro l
  induction l with
  | nil =>
    intro ys h
    obtain rfl : ([] : List Json) = ys := Except.ok.inj h
    rfl
  | cons x xs ih =>
    intro ys h
    cases hf : f x with
    | error e =>
      simp only [mapME, hf] at h
      exact Except.noConfusion h
    | ok y =>
      cases hm : mapME f xs with
      | error e =>
        simp only [mapME, hf, hm] at h
        exact Except.noConfusion h
      | ok ys' =>
        simp only [mapME, hf, hm] at h
        obtain rfl : y :: ys' = ys := Except.ok.inj h
        simp [ih ys' hm]

theorem mapME_get (f : Json → Except Exc Json) :
    ∀ l ys, mapME f l = .ok ys →
      ∀ i (hl : i < l.length) (hy : i < ys.length),
        f (l.get ⟨i, hl⟩) = .ok (ys.get ⟨i, hy⟩) := by
  intro l
  induction l with
  | nil => intro ys h i hl hy; exact absurd hl (Nat.not_lt_zero i)
  | cons x xs ih =>
    intro ys h i hl hy
    cases hf : f x with
    | error e =>
      simp only [mapME, hf] at h
      exact Except.noConfusion h
    | ok y =>
      cases hm : mapME f xs with
      | error e =>
        simp only [mapME, hf, hm] at h
        exact Except.noConfusion h
      | ok ys' =>
        simp only [mapME, hf, hm] at h
        obtain rfl : y :: ys' = ys := Except.ok.inj h
        cases i with
        | zero => exact hf
        | succ i =>
          exact ih ys' hm i (Nat.lt_of_succ_lt_succ hl)
            (Nat.lt_of_succ_lt_succ hy)

/-- C8 (amended): a raw shape without a sidecar-children field yields
exactly one media item, and a carousel whose `edges` list has N elements
yields exactly N media items in source order.  The claimed `N ≥ 1`
invariant is not enforced: an empty `edges` list yields an empty media
list (see the counterexample). -/
theorem c8_media_counts (post : Json) :
    (∀ esc l ms, post.get? "edge_sidecar_to_children" = some esc →
      esc.get? "edges" = some (.arr l) →
      transform_to_carousel_media post = .ok ms →
      ms.length = l.length
        ∧ ∀ i (hl : i < l.length) (hm : i < ms.length),
            transform_gql_child (l.get ⟨i, hl⟩) = .ok (ms.get ⟨i, hm⟩))
    ∧ (∀ ms, post.get? "edge_sidecar_to_children" = none →
        transform_to_carousel_media post = .ok ms → ms.length = 1) := by
  constructor
  · intro esc l ms hesc hedges htr
    simp only [transform_to_carousel_media, hesc, ogetArr, hedges,
      exbind_ok] at htr
    exact ⟨mapME_length _ _ _ htr, fun i hl hm => mapME_get _ _ _ htr i hl hm⟩
  · intro ms hnone htr
    simp only [transform_to_carousel_media, hnone] at htr
    cases hc : transform_gql_child post with
    | error e =>
      simp only [hc, exbind_error] at htr
      exact Except.noConfusion htr
    | ok m =>
      simp only [hc, exbind_ok] at htr
      obtain rfl : [m] = ms := Except.ok.inj htr
      rfl

/-- C8 counterexample: `transform_to_post` accepts a carousel with zero
children and produces a post whose `carousel_media` list is empty — the
media sequence of a normalized post is not always non-empty. -/
theorem c8_counterexample :
    transform_to_post emptyCarouselPostData = .ok emptyCarouselPost
    ∧ emptyCarouselPost.get? "items" = some (.arr [emptyCarouselItem])
    ∧ emptyCarouselItem.get? "carousel_media" = some (.arr []) :=
  ⟨rfl, rfl, rfl⟩

/-- Witness for C8 (amended) on a concrete two-child sidecar: two media
items come out, matching the two children. -/
theorem c8_media_counts_witness :
    (twoChildSidecarPost.get? "edge_sidecar_to_children"
      = some twoChildSidecar)
    ∧ (twoChildSidecar.get? "edges"
      = some (.arr [.obj [("node", imageChildExample)],
                    .obj [("node", imageChildExample)]]))
    ∧ (transform_to_carousel_media twoChildSidecarPost
      = .ok [imageMediaItem, imageMediaItem])
    ∧ ([imageMediaItem, imageMediaItem].length
      = [Json.obj [("node", imageChildExample)],
         Json.obj [("node", imageChildExample)]].length) :=
  ⟨rfl, rfl, rfl,
   ((c8_media_counts twoChildSidecarPost).1 twoChildSidecar _ _
     rfl rfl rfl).1⟩

/- Cache-layer lemmas -/

theorem cacheGet_set_hit (st : List CacheEntry) (now now' : Nat)
    (k v : String) (ttl : Nat) (h : now' < now + ttl) :
    cacheGet (cacheSet st now k v (some ttl)) now' k = some v := by
  simp [cacheGet, cacheSet, List.find?, h]

/-- C9: the cache key of `get_story` is derived from `story_id` alone, so
after `get_story u sid` fills the cache, `get_story u' sid` within the TTL
returns the same cached value for every `u'` with zero producer
invocations — on cache hits the result does not depend on `user_name`. -/
theorem c9_story_key_user_independent {α : Type} (dumps : α → String)
    (loads : String → α) (st : List CacheEntry) (now : Nat) (u sid : String)
    (producer : String → String → Except Exc α) (v : α)
    (hprod : producer u sid = .ok v)
    (hmiss : cacheGet st now (get_story_cache_key u sid) = none)
    (hrt : loads (dumps v) = v) :
    (∀ u1 u2, get_story_cache_key u1 sid = get_story_cache_key u2 sid)
    ∧ cache_get_story dumps loads st now u sid producer
        = .ok (v, cacheSet st now (get_story_cache_key u sid) (dumps v)
            (some ttl24h), 1)
    ∧ ∀ u' now' producer', now' < now + ttl24h →
        cache_get_story dumps loads
            (cacheSet st now (get_story_cache_key u sid) (dumps v)
              (some ttl24h)) now' u' sid producer'
          = .ok (v, cacheSet st now (get_story_cache_key u sid) (dumps v)
              (some ttl24h), 0) := by
  have htt : ttlTruthy (some ttl24h) = true := rfl
  refine ⟨fun u1 u2 => rfl, ?_, ?_⟩
  · simp [cache_get_story, with_cache, hmiss, hprod, htt]
  · intro u' now' producer' hlt
    have hkey : get_story_cache_key u' sid = get_story_cache_key u sid := rfl
    have hhit :
        cacheGet (cacheSet st now (get_story_cache_key u sid) (dumps v)
            (some ttl24h)) now' (get_story_cache_key u' sid)
          = some (dumps v) := by
      rw [hkey]
      exact cacheGet_set_hit st now now' _ _ _ hlt
    simp [cache_get_story, with_cache, hhit, hrt]

/-- Witness for C9: `alice` fills the story cache; `mallory`'s lookup of
the same story id 100 seconds later hits the same entry without any
producer call. -/
theorem c9_story_key_user_independent_witness :
    (cacheGet [] 0 (get_story_cache_key "alice" "17839") = none)
    ∧ cache_get_story (fun _ : Json => "story-json") (fun _ => Json.str "s")
        (cacheSet [] 0 (get_story_cache_key "alice" "17839") "story-json"
          (some ttl24h))
        100 "mallory" "17839" (fun _ _ => .error .loginRequired)
      = .ok (Json.str "s",
          cacheSet [] 0 (get_story_cache_key "alice" "17839") "story-json"
            (some ttl24h), 0) :=
  ⟨rfl,
   (c9_story_key_user_independent (fun _ => "story-json")
      (fun _ => Json.str "s") [] 0 "alice" "17839"
      (fun _ _ => .ok (Json.str "s")) (Json.str "s") rfl rfl rfl).2.2
     "mallory" 100 (fun _ _ => .error .loginRequired) (by decide)⟩

/-- C10: when the story resolution is Absent — the embed path raised and
no story item's id starts with the requested prefix — the cache layer
stores the serialized `null` under the story key with the 24-hour TTL, and
every later `get_story` for the same story id within the TTL returns
Absent with zero producer invocations. -/
theorem c10_absent_cached (items : List Json) (sid : String)
    (dumpVal : Json → String) (loadVal : String → Json)
    (st : List CacheEntry) (now : Nat) (u : String) (eEmbed : Exc)
    (habs : priv_get_story items sid = .ok none)
    (hmiss : cacheGet st now (get_story_cache_key u sid) = none) :
    cache_get_story (json_dumps_opt dumpVal) (json_loads_opt loadVal) st now
        u sid (fun _ sid' => embed_get_story (.error eEmbed) items sid')
      = .ok (none,
          cacheSet st now (get_story_cache_key u sid) "null" (some ttl24h), 1)
    ∧ ∀ u' now' producer', now' < now + ttl24h →
        cache_get_story (json_dumps_opt dumpVal) (json_loads_opt loadVal)
            (cacheSet st now (get_story_cache_key u sid) "null" (some ttl24h))
            now' u' sid producer'
          = .ok (none,
              cacheSet st now (get_story_cache_key u sid) "null"
                (some ttl24h), 0) := by
  have hprod : embed_get_story (.error eEmbed) items sid = .ok none := habs
  have htt : ttlTruthy (some ttl24h) = true := rfl
  constructor
  · simp [cache_get_story, with_cache, hmiss, hprod, htt, json_dumps_opt]
  · intro u' now' producer' hlt
    have hkey : get_story_cache_key u' sid = get_story_cache_key u sid := rfl
    have hhit :
        cacheGet (cacheSet st now (get_story_cache_key u sid) "null"
            (some ttl24h)) now' (get_story_cache_key u' sid)
          = some "null" := by
      rw [hkey]
      exact cacheGet_set_hit st now now' _ _ _ hlt
    simp [cache_get_story, with_cache, hhit, json_loads_opt]

/-- Witness for C10: no item of `[{"id": "991122"}]` starts with `1783`,
so the first call cached `null`; a later call by another user within the
TTL returns Absent without invoking its producer. -/
theorem c10_absent_cached_witness :
    (priv_get_story [Json.obj [("id", Json.str "991122")]] "1783" = .ok none)
    ∧ cache_get_story (json_dumps_opt (fun _ => "x"))
        (json_loads_opt (fun _ => Json.null))
        (cacheSet [] 0 (get_story_cache_key "alice" "1783") "null"
          (some ttl24h))
        5 "bob" "1783" (fun _ _ => .error .cookieExpired)
      = .ok (none,
          cacheSet [] 0 (get_story_cache_key "alice" "1783") "null"
            (some ttl24h), 0) :=
  ⟨rfl,
   (c10_absent_cached [Json.obj [("id", Json.str "991122")]] "1783"
      (fun _ => "x") (fun _ => Json.null) [] 0 "alice"
      (Exc.netError "embed-fail") rfl rfl).2
     "bob" 5 (fun _ _ => .error .cookieExpired) (by decide)⟩
